import Mathlib

/-!
Shallow embedding of `src/tts_edge_server.py`, a local Flask HTTP server
that proxies text-to-speech requests to the external `edge_tts` client.

The external synthesis client (`edge_tts.Communicate(...).stream()`) and the
external voice-list fetch (`edge_tts.list_voices` / `edge_tts.VoicesManager`)
are modelled as oracle parameters: a function from the keyword arguments the
server builds to either an exception (`Except.error msg`) or the list of
streamed chunks, and an environment record for the voice fetch.  `run_async`
(lines 43-46) only executes the coroutine on a worker thread and returns its
result or re-raises its exception; it is modelled as the identity on the
oracle's `Except` result.
-/

namespace TtsEdgeServer

/-- Minimal JSON values, enough for the bodies this server builds. -/
inductive Json where
  | bool : Bool → Json
  | str : String → Json
  | arr : List Json → Json
  | obj : List (String × Json) → Json

/-- Field lookup in a JSON object (`none` on non-objects or missing keys). -/
def Json.lookup : Json → String → Option Json
  | .obj fields, k => List.lookup k fields
  | _, _ => none

/-- An HTTP response body: either a JSON document (from `jsonify`) or raw
bytes (from `Response(audio, mimetype=...)`).  Bytes are modelled as
`List Nat` (one entry per byte). -/
inductive HttpBody where
  | json : Json → HttpBody
  | bytes : List Nat → HttpBody

/-- An HTTP response: status code, content type, body. -/
structure HttpResponse where
  status : Nat
  mimetype : String
  body : HttpBody

/-- `jsonify(obj)` with an explicit status: Flask serves JSON with content
type application/json; the bare form has status 200. -/
def jsonResponse (status : Nat) (fields : List (String × Json)) : HttpResponse :=
  { status := status, mimetype := "application/json", body := HttpBody.json (Json.obj fields) }

/-- Python `str.strip()` whitespace test, restricted to the ASCII whitespace
characters (space, tab, newline, carriage return, vertical tab, form feed). -/
def pyIsSpace (c : Char) : Bool :=
  c = ' ' || c = '\t' || c = '\n' || c = '\r' || c = '\x0b' || c = '\x0c'

/-- Python `s.strip()`: drop leading and trailing whitespace. -/
def pyStrip (s : String) : String :=
  String.mk (((s.data.dropWhile pyIsSpace).reverse.dropWhile pyIsSpace).reverse)

/-- Python `s.strip() or d` (line 103-106 idiom): the stripped string if it
is non-empty, otherwise the default `d`. -/
def strip_or (s d : String) : String :=
  if pyStrip s = "" then d else pyStrip s

/-- Line 31. -/
def DEFAULT_VOICE : String := "zh-CN-XiaoxiaoNeural"

/-- Line 32. -/
def DEFAULT_RATE : String := "+0%"

/-- Line 33. -/
def DEFAULT_VOLUME : String := "+0%"

/-- Line 34. -/
def DEFAULT_PITCH : String := "+0Hz"

/-- Lines 35-40: the hardcoded fallback voice list. -/
def FALLBACK_VOICES : List Json :=
  [ Json.obj [("ShortName", Json.str "zh-CN-XiaoxiaoNeural"), ("Locale", Json.str "zh-CN"), ("Gender", Json.str "Female")],
    Json.obj [("ShortName", Json.str "zh-CN-YunxiNeural"), ("Locale", Json.str "zh-CN"), ("Gender", Json.str "Male")],
    Json.obj [("ShortName", Json.str "zh-CN-XiaoyiNeural"), ("Locale", Json.str "zh-CN"), ("Gender", Json.str "Female")],
    Json.obj [("ShortName", Json.str "zh-CN-YunjianNeural"), ("Locale", Json.str "zh-CN"), ("Gender", Json.str "Male")] ]

/-- Lines 49-57: `build_boundary_option`.  `opts` collects
"SentenceBoundary" (if `sentence_boundary`) then "WordBoundary" (if
`word_boundary`); empty gives `None`, otherwise the comma join. -/
def build_boundary_option ( word_boundary sentence_boundary : Bool) : Option String :=
  let opts : List String :=
    (if sentence_boundary then ["SentenceBoundary"] else []) ++
    (if word_boundary then ["WordBoundary"] else [])
  if opts.isEmpty then none else some (String.intercalate "," opts)

/-- One chunk of the synthesis client's stream (a Python dict).
`ctype` is the value of its "type" key, `none` when absent.
`data` is `some bs` when the "data" key holds a byte string `bs`, and
`none` when the key is absent or holds a non-bytes value (the code then
treats it exactly like empty bytes, lines 93-94). -/
structure Chunk where
  ctype : Option String
  data : Option (List Nat)

/-- The keyword-argument record built at lines 72-87 and passed to
`edge_tts.Communicate`.  `float(x)` on the timeouts is modelled as the
identity on an opaque numeric payload. -/
structure SynthKwargs where
  text : String
  voice : String
  rate : String
  volume : String
  pitch : String
  boundary : Option String
  proxy : Option String
  connect_timeout : Option Nat
  receive_timeout : Option Nat

/-- Lines 72-87: build the kwargs dict.  `if boundary:` and `if proxy:` are
Python truthiness: the key is set only for a non-`None`, non-empty string. -/
def synth_kwargs (text voice rate volume pitch : String)
    ( word_boundary sentence_boundary : Bool)
    (proxy : Option String) (connect_timeout receive_timeout : Option Nat) : SynthKwargs :=
  { text := text, voice := voice, rate := rate, volume := volume, pitch := pitch,
    boundary := match build_boundary_option word_boundary sentence_boundary with
      | some b => if b = "" then none else some b
      | none => none,
    proxy := match proxy with
      | some p => if p = "" then none else some p
      | none => none,
    connect_timeout := connect_timeout,
    receive_timeout := receive_timeout }

/-- The external synthesis client: given the kwargs, either raises
(`Except.error msg`, covering both `Communicate(**kwargs)` and the
streaming loop) or yields the streamed chunks in order. -/
def SynthClient : Type := SynthKwargs → Except String (List Chunk)

/-- Lines 90-96: the accumulation loop.  A chunk contributes its data
exactly when its "type" is "audio" and its data is a non-empty byte
string; the result is the in-order concatenation. -/
def accumulate_audio : List Chunk → List Nat
  | [] => []
  | c :: rest =>
    if c.ctype = some "audio" then
      match c.data with
      | some d => if d ≠ [] then d ++ accumulate_audio rest else accumulate_audio rest
      | none => accumulate_audio rest
    else accumulate_audio rest

/-- Lines 60-96: `synthesize_to_mp3_bytes`.  Builds the kwargs, calls the
client, and concatenates the audio-typed chunks; any client exception
propagates. -/
def synthesize_to_mp3_bytes (client : SynthClient)
    (text voice rate volume pitch : String)
    ( word_boundary sentence_boundary : Bool)
    (proxy : Option String) (connect_timeout receive_timeout : Option Nat) :
    Except String (List Nat) :=
  match client (synth_kwargs text voice rate volume pitch
      word_boundary sentence_boundary proxy connect_timeout receive_timeout) with
  | Except.error e => Except.error e
  | Except.ok chunks => Except.ok (accumulate_audio chunks)

/-- The JSON body of a POST /api/tts request, as the handler reads it.
Each field is `some v` when present (string fields already passed through
Python `str(...)`), `none` when absent.  `request.get_json(silent=True)`
returning `None` is modelled by passing `none` for the whole body. -/
structure TtsBody where
  text : Option String := none
  voice : Option String := none
  rate : Option String := none
  volume : Option String := none
  pitch : Option String := none
  word_boundary : Option Bool := none
  sentence_boundary : Option Bool := none
  proxy : Option String := none
  connect_timeout : Option Nat := none
  receive_timeout : Option Nat := none

/-- The request parameters after lines 101-112 of `tts_api`. -/
structure TtsParams where
  text : String
  voice : String
  rate : String
  volume : String
  pitch : String
  word_boundary : Bool
  sentence_boundary : Bool
  proxy : Option String
  connect_timeout : Option Nat
  receive_timeout : Option Nat

/-- Lines 101-112: extract and normalise the request parameters.
`data.get(k, default)` is `Option.getD`; string fields are stripped with
the default restored on blank; the boundary flags default to false; the
proxy is kept only when it is a string with non-blank content. -/
def tts_parse (jsonBody : Option TtsBody) : TtsParams :=
  let data := jsonBody.getD {}
  { text := pyStrip (data.text.getD ""),
    voice := strip_or (data.voice.getD DEFAULT_VOICE) DEFAULT_VOICE,
    rate := strip_or (data.rate.getD DEFAULT_RATE) DEFAULT_RATE,
    volume := strip_or (data.volume.getD DEFAULT_VOLUME) DEFAULT_VOLUME,
    pitch := strip_or (data.pitch.getD DEFAULT_PITCH) DEFAULT_PITCH,
    word_boundary := data.word_boundary.getD false,
    sentence_boundary := data.sentence_boundary.getD false,
    proxy := match data.proxy with
      | some p => if pyStrip p = "" then none else some (pyStrip p)
      | none => none,
    connect_timeout := data.connect_timeout,
    receive_timeout := data.receive_timeout }

/-- The kwargs record `tts_api` causes to be passed to the synthesis
client for parsed parameters `p` (via `synthesize_to_mp3_bytes`). -/
def tts_kwargs (p : TtsParams) : SynthKwargs :=
  synth_kwargs p.text p.voice p.rate p.volume p.pitch
    p.word_boundary p.sentence_boundary p.proxy p.connect_timeout p.receive_timeout

/-- Lines 117-136: the try block around the synthesis call.  An exception
becomes a 500 JSON error; empty audio becomes a 500 JSON error; otherwise
the bytes are served as audio/mpeg with status 200. -/
def tts_respond (result : Except String (List Nat)) : HttpResponse :=
  match result with
  | Except.error exc => jsonResponse 500 [("error", Json.str exc)]
  | Except.ok audio =>
    if audio.isEmpty then jsonResponse 500 [("error", Json.str "empty audio")]
    else { status := 200, mimetype := "audio/mpeg", body := HttpBody.bytes audio }

/-- Lines 99-136: the POST /api/tts handler. -/
def tts_api (client : SynthClient) (jsonBody : Option TtsBody) : HttpResponse :=
  let p := tts_parse jsonBody
  if p.text = "" then jsonResponse 400 [("error", Json.str "text is required")]
  else
    tts_respond (synthesize_to_mp3_bytes client p.text p.voice p.rate p.volume p.pitch
      p.word_boundary p.sentence_boundary p.proxy p.connect_timeout p.receive_timeout)

/-- The external environment of the GET /api/voices handler:
whether `edge_tts` has a `list_voices` attribute, the outcome of
`run_async(edge_tts.list_voices())`, and the outcome of
`getattr(run_async(edge_tts.VoicesManager.create()), "voices", [])`. -/
structure VoicesEnv where
  has_list_voices : Bool
  list_voices : Except String (List Json)
  manager_voices : Except String (List Json)

/-- Lines 142-146: the voice list the try block obtains, or the exception
it raises.  `... or []` maps a falsy (empty) list to `[]`. -/
def voices_fetch (env : VoicesEnv) : Except String (List Json) :=
  if env.has_list_voices then env.list_voices
  else Except.map (fun vs => if vs.isEmpty then [] else vs) env.manager_voices

/-- Lines 139-150: the GET /api/voices handler. -/
def voices_api (env : VoicesEnv) : HttpResponse :=
  match voices_fetch env with
  | Except.ok voices =>
    jsonResponse 200 [("ok", Json.bool true), ("fallback", Json.bool false), ("voices", Json.arr voices)]
  | Except.error exc =>
    jsonResponse 200 [("ok", Json.bool false), ("fallback", Json.bool true),
      ("error", Json.str exc), ("voices", Json.arr FALLBACK_VOICES)]

/-- Lines 153-155: the GET /api/health handler. -/
def health : HttpResponse :=
  jsonResponse 200 [("ok", Json.bool true)]

/-- Whether a response is JSON with an "error" field. -/
def has_error_field (r : HttpResponse) : Bool :=
  match r.body with
  | HttpBody.json j => (Json.lookup j "error").isSome
  | HttpBody.bytes _ => false

/-- Whether a response is JSON whose "voices" field is a non-empty array. -/
def voices_list_nonempty (r : HttpResponse) : Bool :=
  match r.body with
  | HttpBody.json j =>
    match Json.lookup j "voices" with
    | some (Json.arr l) => !l.isEmpty
    | _ => false
  | HttpBody.bytes _ => false

/-- The "voices" field of a JSON response, if any. -/
def response_voices (r : HttpResponse) : Option Json :=
  match r.body with
  | HttpBody.json j => Json.lookup j "voices"
  | HttpBody.bytes _ => none

/-- The accumulation loop keeps exactly the audio-typed chunks, in order. -/
theorem accumulate_audio_eq_join (chunks : List Chunk) :
    accumulate_audio chunks =
      ((chunks.filter (fun c => c.ctype == some "audio")).map (fun c => c.data.getD [])).flatten := by
  induction chunks with
  | nil => rfl
  | cons c rest ih =>
    unfold accumulate_audio
    by_cases h : c.ctype = some "audio"
    · cases hd : c.data with
      | none => simp [h, hd, List.filter_cons, ih]
      | some d =>
        by_cases hde : d = []
        · simp [h, hd, hde, List.filter_cons, ih]
        · simp [h, hd, hde, List.filter_cons, ih]
    · simp [h, List.filter_cons, ih]

/-- C1: a POST /api/tts request whose text is missing, empty or
whitespace-only gets a 400 response with an "error" field, and the
response does not depend on the synthesis client (it is never invoked). -/
theorem tts_blank_text_400 (client client' : SynthClient) (jsonBody : Option TtsBody)
    (h : pyStrip (((jsonBody.getD {}).text).getD "") = "") :
    tts_api client jsonBody = jsonResponse 400 [("error", Json.str "text is required")] ∧
    tts_api client jsonBody = tts_api client' jsonBody := by
  have ht : (tts_parse jsonBody).text = "" := h
  constructor
  · simp [tts_api, ht]
  · simp [tts_api, ht]

theorem tts_blank_text_400_witness :
    tts_api (fun _ => Except.ok []) (some { text := some "  " }) =
      jsonResponse 400 [("error", Json.str "text is required")] ∧
    tts_api (fun _ => Except.ok []) (some { text := some "  " }) =
      tts_api (fun _ => Except.error "y") (some { text := some "  " }) :=
  tts_blank_text_400 (fun _ => Except.ok []) (fun _ => Except.error "y")
    (some { text := some "  " }) (by decide)

/-- C2: when the text is non-empty and the synthesis client raises, the
POST /api/tts handler returns 500 with an "error" field. -/
theorem tts_synth_error_500 (client : SynthClient) (jsonBody : Option TtsBody) (e : String)
    (htext : (tts_parse jsonBody).text ≠ "")
    (hc : client (tts_kwargs (tts_parse jsonBody)) = Except.error e) :
    (tts_api client jsonBody).status = 500 ∧
    has_error_field (tts_api client jsonBody) = true := by
  unfold tts_kwargs at hc
  have hres : synthesize_to_mp3_bytes client (tts_parse jsonBody).text (tts_parse jsonBody).voice
      (tts_parse jsonBody).rate (tts_parse jsonBody).volume (tts_parse jsonBody).pitch
      (tts_parse jsonBody).word_boundary (tts_parse jsonBody).sentence_boundary
      (tts_parse jsonBody).proxy (tts_parse jsonBody).connect_timeout
      (tts_parse jsonBody).receive_timeout = Except.error e := by
    unfold synthesize_to_mp3_bytes
    rw [hc]
  have hr : tts_api client jsonBody = jsonResponse 500 [("error", Json.str e)] := by
    simp only [tts_api]
    rw [if_neg htext, hres]
    rfl
  rw [hr]
  exact ⟨rfl, rfl⟩

theorem tts_synth_error_500_witness :
    (tts_api (fun _ => Except.error "boom") (some { text := some "hi" })).status = 500 ∧
    has_error_field (tts_api (fun _ => Except.error "boom") (some { text := some "hi" })) = true :=
  tts_synth_error_500 (fun _ => Except.error "boom") (some { text := some "hi" }) "boom"
    (by decide) rfl

/-- C3: for valid text, when the synthesis client succeeds, the handler
serves the accumulated bytes as audio/mpeg when they are non-empty, and
returns 500 with an "error" field when the buffer is empty. -/
theorem tts_valid_text_response (client : SynthClient) (jsonBody : Option TtsBody)
    (chunks : List Chunk)
    (htext : (tts_parse jsonBody).text ≠ "")
    (hc : client (tts_kwargs (tts_parse jsonBody)) = Except.ok chunks) :
    (accumulate_audio chunks ≠ [] →
      tts_api client jsonBody =
        { status := 200, mimetype := "audio/mpeg",
          body := HttpBody.bytes (accumulate_audio chunks) }) ∧
    (accumulate_audio chunks = [] →
      (tts_api client jsonBody).status = 500 ∧
      has_error_field (tts_api client jsonBody) = true) := by
  unfold tts_kwargs at hc
  have hres : synthesize_to_mp3_bytes client (tts_parse jsonBody).text (tts_parse jsonBody).voice
      (tts_parse jsonBody).rate (tts_parse jsonBody).volume (tts_parse jsonBody).pitch
      (tts_parse jsonBody).word_boundary (tts_parse jsonBody).sentence_boundary
      (tts_parse jsonBody).proxy (tts_parse jsonBody).connect_timeout
      (tts_parse jsonBody).receive_timeout = Except.ok (accumulate_audio chunks) := by
    unfold synthesize_to_mp3_bytes
    rw [hc]
  have hr : tts_api client jsonBody = tts_respond (Except.ok (accumulate_audio chunks)) := by
    simp only [tts_api]
    rw [if_neg htext, hres]
  constructor
  · intro hne
    have hemp : (accumulate_audio chunks).isEmpty = false := by
      cases h' : accumulate_audio chunks with
      | nil => exact absurd h' hne
      | cons a l => rfl
    rw [hr]
    simp [tts_respond, hemp]
  · intro he
    rw [hr, he]
    exact ⟨rfl, rfl⟩

theorem tts_valid_text_response_witness :
    tts_api (fun _ => Except.ok [⟨some "audio", some [7, 8]⟩]) (some { text := some "hi" }) =
      { status := 200, mimetype := "audio/mpeg", body := HttpBody.bytes [7, 8] } :=
  (tts_valid_text_response (fun _ => Except.ok [⟨some "audio", some [7, 8]⟩])
    (some { text := some "hi" }) [⟨some "audio", some [7, 8]⟩] (by decide) rfl).1 (by decide)

/-- C4, counterexample: when the remote fetch succeeds with an empty list,
the "voices" field of the response is the empty array, so the claim that
the list is always non-empty fails. -/
theorem voices_api_empty_fetch_counterexample :
    voices_list_nonempty (voices_api
      { has_list_voices := true, list_voices := Except.ok [],
        manager_voices := Except.ok [] }) = false := rfl

/-- C4, amended: on fetch failure the "voices" field is the hardcoded
fallback list, which is non-empty; on fetch success it is exactly the
fetched list, hence non-empty exactly when the remote returned at least
one voice. -/
theorem voices_api_amended (env : VoicesEnv) :
    (∀ e, voices_fetch env = Except.error e →
      response_voices (voices_api env) = some (Json.arr FALLBACK_VOICES) ∧
      voices_list_nonempty (voices_api env) = true) ∧
    (∀ vs, voices_fetch env = Except.ok vs →
      response_voices (voices_api env) = some (Json.arr vs)) := by
  constructor
  · intro e he
    have hr : voices_api env = jsonResponse 200 [("ok", Json.bool false),
        ("fallback", Json.bool true), ("error", Json.str e),
        ("voices", Json.arr FALLBACK_VOICES)] := by
      simp only [voices_api]
      rw [he]
    rw [hr]
    exact ⟨rfl, rfl⟩
  · intro vs hvs
    have hr : voices_api env = jsonResponse 200 [("ok", Json.bool true),
        ("fallback", Json.bool false), ("voices", Json.arr vs)] := by
      simp only [voices_api]
      rw [hvs]
    rw [hr]
    rfl

theorem voices_api_amended_witness :
    response_voices (voices_api
      { has_list_voices := true, list_voices := Except.error "net down",
        manager_voices := Except.ok [] }) = some (Json.arr FALLBACK_VOICES) ∧
    voices_list_nonempty (voices_api
      { has_list_voices := true, list_voices := Except.error "net down",
        manager_voices := Except.ok [] }) = true :=
  (voices_api_amended
    { has_list_voices := true, list_voices := Except.error "net down",
      manager_voices := Except.ok [] }).1 "net down" rfl

/-- C5: when the voice-list fetch raises, GET /api/voices answers 200 with
ok false, fallback true, the exception text, and the hardcoded fallback
voice list. -/
theorem voices_api_fetch_error_fallback (env : VoicesEnv) (e : String)
    (h : voices_fetch env = Except.error e) :
    voices_api env = jsonResponse 200 [("ok", Json.bool false), ("fallback", Json.bool true),
      ("error", Json.str e), ("voices", Json.arr FALLBACK_VOICES)] := by
  simp only [voices_api]
  rw [h]

theorem voices_api_fetch_error_fallback_witness :
    voices_api
      { has_list_voices := false, list_voices := Except.ok [],
        manager_voices := Except.error "net down" } =
    jsonResponse 200 [("ok", Json.bool false), ("fallback", Json.bool true),
      ("error", Json.str "net down"), ("voices", Json.arr FALLBACK_VOICES)] :=
  voices_api_fetch_error_fallback
    { has_list_voices := false, list_voices := Except.ok [],
      manager_voices := Except.error "net down" } "net down" rfl

/-- C6: when voice, rate, volume and pitch are absent from the body, the
kwargs the handler passes to the synthesis client carry the defaults, and
the handler's response is exactly the client's answer on those kwargs
(error, or accumulated audio). -/
theorem tts_absent_fields_forward_defaults (client : SynthClient) (jsonBody : Option TtsBody)
    (hv : (jsonBody.getD {}).voice = none) (hr : (jsonBody.getD {}).rate = none)
    (hvol : (jsonBody.getD {}).volume = none) (hp : (jsonBody.getD {}).pitch = none)
    (htext : (tts_parse jsonBody).text ≠ "") :
    (tts_kwargs (tts_parse jsonBody)).voice = DEFAULT_VOICE ∧
    (tts_kwargs (tts_parse jsonBody)).rate = DEFAULT_RATE ∧
    (tts_kwargs (tts_parse jsonBody)).volume = DEFAULT_VOLUME ∧
    (tts_kwargs (tts_parse jsonBody)).pitch = DEFAULT_PITCH ∧
    tts_api client jsonBody =
      tts_respond (Except.map accumulate_audio (client (tts_kwargs (tts_parse jsonBody)))) := by
  refine ⟨?_, ?_, ?_, ?_, ?_⟩
  · show strip_or ((jsonBody.getD {}).voice.getD DEFAULT_VOICE) DEFAULT_VOICE = DEFAULT_VOICE
    rw [hv]
    decide
  · show strip_or ((jsonBody.getD {}).rate.getD DEFAULT_RATE) DEFAULT_RATE = DEFAULT_RATE
    rw [hr]
    decide
  · show strip_or ((jsonBody.getD {}).volume.getD DEFAULT_VOLUME) DEFAULT_VOLUME = DEFAULT_VOLUME
    rw [hvol]
    decide
  · show strip_or ((jsonBody.getD {}).pitch.getD DEFAULT_PITCH) DEFAULT_PITCH = DEFAULT_PITCH
    rw [hp]
    decide
  · simp only [tts_api]
    rw [if_neg htext]
    congr 1
    unfold synthesize_to_mp3_bytes tts_kwargs
    cases client (synth_kwargs (tts_parse jsonBody).text (tts_parse jsonBody).voice
      (tts_parse jsonBody).rate (tts_parse jsonBody).volume (tts_parse jsonBody).pitch
      (tts_parse jsonBody).word_boundary (tts_parse jsonBody).sentence_boundary
      (tts_parse jsonBody).proxy (tts_parse jsonBody).connect_timeout
      (tts_parse jsonBody).receive_timeout) <;> rfl

theorem tts_absent_fields_forward_defaults_witness :
    (tts_kwargs (tts_parse (some { text := some "hi" }))).voice = DEFAULT_VOICE ∧
    (tts_kwargs (tts_parse (some { text := some "hi" }))).rate = DEFAULT_RATE ∧
    (tts_kwargs (tts_parse (some { text := some "hi" }))).volume = DEFAULT_VOLUME ∧
    (tts_kwargs (tts_parse (some { text := some "hi" }))).pitch = DEFAULT_PITCH ∧
    tts_api (fun _ => Except.error "x") (some { text := some "hi" }) =
      tts_respond (Except.map accumulate_audio ((fun _ => Except.error "x")
        (tts_kwargs (tts_parse (some { text := some "hi" }))))) :=
  tts_absent_fields_forward_defaults (fun _ => Except.error "x") (some { text := some "hi" })
    rfl rfl rfl rfl (by decide)

/-- C7: a successful synthesis returns exactly the in-order concatenation
of the data of the audio-typed chunks; chunks of any other type contribute
nothing. -/
theorem synthesize_concat_audio (client : SynthClient)
    (text voice rate volume pitch : String) ( word_boundary sentence_boundary : Bool)
    (proxy : Option String) (connect_timeout receive_timeout : Option Nat)
    (chunks : List Chunk)
    (hc : client (synth_kwargs text voice rate volume pitch word_boundary sentence_boundary
      proxy connect_timeout receive_timeout) = Except.ok chunks) :
    synthesize_to_mp3_bytes client text voice rate volume pitch word_boundary sentence_boundary
      proxy connect_timeout receive_timeout =
    Except.ok (((chunks.filter (fun c => c.ctype == some "audio")).map
      (fun c => c.data.getD [])).flatten) := by
  unfold synthesize_to_mp3_bytes
  rw [hc]
  exact congrArg Except.ok (accumulate_audio_eq_join chunks)

theorem synthesize_concat_audio_witness :
    synthesize_to_mp3_bytes (fun _ => Except.ok
      [⟨some "audio", some [1, 2]⟩, ⟨some "WordBoundary", some [9]⟩,
       ⟨some "audio", none⟩, ⟨none, some [3]⟩, ⟨some "audio", some [4]⟩])
      "hi" "v" "+0%" "+0%" "+0Hz" false false none none none =
    Except.ok [1, 2, 4] :=
  synthesize_concat_audio (fun _ => Except.ok
      [⟨some "audio", some [1, 2]⟩, ⟨some "WordBoundary", some [9]⟩,
       ⟨some "audio", none⟩, ⟨none, some [3]⟩, ⟨some "audio", some [4]⟩])
    "hi" "v" "+0%" "+0%" "+0Hz" false false none none none
    [⟨some "audio", some [1, 2]⟩, ⟨some "WordBoundary", some [9]⟩,
     ⟨some "audio", none⟩, ⟨none, some [3]⟩, ⟨some "audio", some [4]⟩] rfl

/-- C8: GET /api/health unconditionally answers the JSON object with the
single field "ok" set to true. -/
theorem health_ok_true :
    health =
      { status := 200, mimetype := "application/json",
        body := HttpBody.json (Json.obj [("ok", Json.bool true)]) } := rfl

/-- C9: a voice, rate, volume or pitch field that is present but blank
after stripping parses to the corresponding default, exactly as if the
field were absent. -/
theorem tts_blank_fields_default (b : TtsBody) (v r vol p : String)
    (hv : pyStrip v = "") (hr : pyStrip r = "") (hvol : pyStrip vol = "") (hp : pyStrip p = "") :
    ((tts_parse (some { b with voice := some v })).voice = DEFAULT_VOICE ∧
      tts_parse (some { b with voice := some v }) = tts_parse (some { b with voice := none })) ∧
    ((tts_parse (some { b with rate := some r })).rate = DEFAULT_RATE ∧
      tts_parse (some { b with rate := some r }) = tts_parse (some { b with rate := none })) ∧
    ((tts_parse (some { b with volume := some vol })).volume = DEFAULT_VOLUME ∧
      tts_parse (some { b with volume := some vol }) = tts_parse (some { b with volume := none })) ∧
    ((tts_parse (some { b with pitch := some p })).pitch = DEFAULT_PITCH ∧
      tts_parse (some { b with pitch := some p }) = tts_parse (some { b with pitch := none })) := by
  have dv : strip_or DEFAULT_VOICE DEFAULT_VOICE = DEFAULT_VOICE := by decide
  have dr : strip_or DEFAULT_RATE DEFAULT_RATE = DEFAULT_RATE := by decide
  have dvol : strip_or DEFAULT_VOLUME DEFAULT_VOLUME = DEFAULT_VOLUME := by decide
  have dp : strip_or DEFAULT_PITCH DEFAULT_PITCH = DEFAULT_PITCH := by decide
  have sv : strip_or v DEFAULT_VOICE = DEFAULT_VOICE := by
    unfold strip_or
    rw [if_pos hv]
  have sr : strip_or r DEFAULT_RATE = DEFAULT_RATE := by
    unfold strip_or
    rw [if_pos hr]
  have svol : strip_or vol DEFAULT_VOLUME = DEFAULT_VOLUME := by
    unfold strip_or
    rw [if_pos hvol]
  have sp : strip_or p DEFAULT_PITCH = DEFAULT_PITCH := by
    unfold strip_or
    rw [if_pos hp]
  refine ⟨⟨sv, ?_⟩, ⟨sr, ?_⟩, ⟨svol, ?_⟩, ⟨sp, ?_⟩⟩
  · simp [tts_parse, sv, dv]
  · simp [tts_parse, sr, dr]
  · simp [tts_parse, svol, dvol]
  · simp [tts_parse, sp, dp]

theorem tts_blank_fields_default_witness :
    (tts_parse (some { ({} : TtsBody) with voice := some " " })).voice = DEFAULT_VOICE :=
  (tts_blank_fields_default {} " " " " " " " "
    (by decide) (by decide) (by decide) (by decide)).1.1

/-- C10: build_boundary_option is None exactly when both flags are false;
a single flag yields its marker name, and both flags yield
"SentenceBoundary,WordBoundary" with SentenceBoundary first. -/
theorem build_boundary_option_cases :
    (∀ wb sb, (build_boundary_option wb sb = none ↔ wb = false ∧ sb = false)) ∧
    build_boundary_option false true = some "SentenceBoundary" ∧
    build_boundary_option true false = some "WordBoundary" ∧
    build_boundary_option true true = some "SentenceBoundary,WordBoundary" := by
  refine ⟨?_, rfl, rfl, rfl⟩
  decide

end TtsEdgeServer
